import Mathlib

/-!
Shallow embedding of the slide-deck generator backend (`backend.py`) and
proofs about the claims of its specification.

The embedding translates the backend's pure logic into total Lean functions:
* Python values produced by the stdlib parsers are the inductive `PyValue`;
* machine-level effects (the external `ollama` process, the filesystem,
  the `pptx` renderer, the cancellation flag) are supplied by an explicit
  environment `Env`, and fallible code returns `Except`;
* the two stdlib text parsers `json.loads` and `ast.literal_eval` are
  external library code (not part of this repository), so they are
  parameters of the extraction function; any exception they raise is
  swallowed by the bare `except:` in the source and is modelled by
  returning `Option.none`.
-/

set_option maxHeartbeats 1000000
set_option linter.unusedVariables false

namespace PPTGen

/-- Python values as produced by `json.loads` / `ast.literal_eval` on model
output.  Numbers are modelled as integers (no claim depends on float
formatting).  Dictionary keys are modelled as strings: the backend only ever
looks up the string keys `"title"` and `"points"`, so entries with
non-string keys are indistinguishable from absent entries. -/
inductive PyValue where
  | none : PyValue
  | bool : Bool → PyValue
  | int : Int → PyValue
  | str : String → PyValue
  | list : List PyValue → PyValue
  | dict : List (String × PyValue) → PyValue

/-- The single-quote character, written via its code point. -/
def squote : Char := Char.ofNat 39

/-- Escape one character of a Python string `repr`, given the chosen quote
character `q`.  Faithful to CPython for printable-ASCII content. -/
def reprStrChar (q : Char) (c : Char) : String :=
  if c = '\\' then "\\\\"
  else if c = q then "\\" ++ String.mk [q]
  else if c = '\n' then "\\n"
  else if c = '\r' then "\\r"
  else if c = '\t' then "\\t"
  else String.mk [c]

/-- CPython `repr` of a string: single quotes, unless the string contains a
single quote and no double quote. -/
def reprStr (s : String) : String :=
  let q : Char :=
    if s.toList.contains squote ∧ ¬ s.toList.contains '"' then '"' else squote
  String.mk [q] ++ String.join (s.toList.map (reprStrChar q)) ++ String.mk [q]

/-- CPython `repr` of a `PyValue` (used by `str()` on non-string values). -/
def pyRepr : PyValue → String
  | .none => "None"
  | .bool true => "True"
  | .bool false => "False"
  | .int n => toString n
  | .str s => reprStr s
  | .list l => "[" ++ String.intercalate ", " (l.attach.map fun x => pyRepr x.1) ++ "]"
  | .dict kvs =>
      "\x7b" ++
        String.intercalate ", "
          (kvs.attach.map fun e => reprStr e.1.1 ++ ": " ++ pyRepr e.1.2) ++
      "\x7d"
decreasing_by
  · obtain ⟨v, hmem⟩ := x
    have h := List.sizeOf_lt_of_mem hmem
    simp_all
    omega
  · obtain ⟨⟨a, b⟩, hmem⟩ := e
    have h := List.sizeOf_lt_of_mem hmem
    simp_all
    omega

/-- CPython `str()` of a `PyValue`: the string itself for strings; for
`None`, booleans and integers the `repr` spelled out directly; for the
container types, `repr`. -/
def pyStr : PyValue → String
  | .none => "None"
  | .bool true => "True"
  | .bool false => "False"
  | .int n => toString n
  | .str s => s
  | v => pyRepr v

/-- `d.get(k)` on a parsed Python dict (keys of a parsed dict are unique). -/
def dictGet (kvs : List (String × PyValue)) (k : String) : Option PyValue :=
  (kvs.find? fun p => p.1 == k).map fun p => p.2

/-- The whitespace class of Python's `str.strip()` / `str.split()` and of the
regex class `\s`, restricted to ASCII. -/
def pyIsSpace (c : Char) : Bool :=
  c = ' ' || c = '\t' || c = '\n' || c = '\r' || c = Char.ofNat 11 || c = Char.ofNat 12

/-- `str.strip()` on a character list: drop whitespace from both ends. -/
def stripList (cs : List Char) : List Char :=
  ((cs.dropWhile pyIsSpace).reverse.dropWhile pyIsSpace).reverse

/-- Python `str.strip()`. -/
def pyStrip (s : String) : String :=
  String.mk (stripList s.toList)

mutual
/-- Number of whitespace-separated words (`len(s.split())`), scanning outside
a word. -/
def wcOut : List Char → Nat
  | [] => 0
  | c :: rest => if pyIsSpace c then wcOut rest else 1 + wcIn rest
/-- Number of whitespace-separated words still to start, scanning inside a
word. -/
def wcIn : List Char → Nat
  | [] => 0
  | c :: rest => if pyIsSpace c then wcOut rest else wcIn rest
end

/-- `len(user_input.split())`. -/
def pyWordCount (s : String) : Nat := wcOut s.toList

/-- Python `str.lower()` (ASCII case mapping, like `Char.toLower`). -/
def pyLower (s : String) : String := String.mk (s.toList.map Char.toLower)

/-- Index of the first occurrence of `pat` in `cs` (`str.find` /
leftmost regex match position). -/
def findSubstrIdx : List Char → List Char → Option Nat
  | [], pat => if pat.isEmpty then some 0 else Option.none
  | c :: rest, pat =>
    if pat.isPrefixOf (c :: rest) then some 0
    else (findSubstrIdx rest pat).map (· + 1)

/-- Python's substring test `pat in text`. -/
def containsSub (text pat : String) : Bool :=
  (findSubstrIdx text.toList pat.toList).isSome

/-- Does `pat` occur at position `i` of `cs`? -/
def occursAt (cs pat : List Char) (i : Nat) : Bool :=
  pat.isPrefixOf (cs.drop i)

/-- Number of positions of `cs` at which `pat` occurs (the claim-side count
of "occurrences" of a keyword). -/
def numOcc (cs pat : List Char) : Nat :=
  (List.range cs.length).countP (occursAt cs pat)

/-- `complexity_indicators['broad']` from `estimate_slide_count_from_keywords`. -/
def complexityBroad : List String :=
  ["overview", "introduction", "complete", "comprehensive", "full", "entire"]

/-- `complexity_indicators['process']`. -/
def complexityProcess : List String :=
  ["process", "steps", "workflow", "procedure", "implementation"]

/-- `complexity_indicators['training']`. -/
def complexityTraining : List String :=
  ["training", "course", "learning", "education", "tutorial"]

/-- All fifteen indicator keywords. -/
def allIndicatorKeywords : List String :=
  complexityBroad ++ complexityProcess ++ complexityTraining

/-- `estimate_slide_count_from_keywords` from `backend.py` (lines 94-112).
CPython sums the score in floating point, but every contribution is a
small multiple of 0.5 (`2` per broad keyword present, `1.5` per process
keyword, `2` per training keyword, `0.5` per comma, `1` per 25 words), so
the float arithmetic is exact; we track *twice* the score as a natural
number (4, 3, 4, 1 and 2 units respectively).  `int(score + 5)` truncates
a nonnegative value, i.e. `scoreTimesTwo / 2 + 5` with flooring natural
division. -/
def estimate_slide_count_from_keywords (user_input : String) : Int :=
  let text := pyLower user_input
  let scoreTimesTwo : Nat :=
    4 * (complexityBroad.filter fun w => containsSub text w).length
    + 3 * (complexityProcess.filter fun w => containsSub text w).length
    + 4 * (complexityTraining.filter fun w => containsSub text w).length
    + text.toList.count ','
    + 2 * (pyWordCount user_input / 25)
  max 3 (min 18 ((scoreTimesTwo / 2 + 5 : Nat) : Int))

/-- Modelled from the spec: the slide-count formula exactly as claim C6
words it, with a contribution for *each occurrence* of a keyword (counted
at every position of the lowercased topic), rather than one contribution
per keyword that occurs.  Same exact half-point bookkeeping as the source
function.  Used only to compare the claim against the source. -/
def spec_slide_count_occurrences (user_input : String) : Int :=
  let text := pyLower user_input
  let scoreTimesTwo : Nat :=
    4 * (complexityBroad.map fun w => numOcc text.toList w.toList).sum
    + 3 * (complexityProcess.map fun w => numOcc text.toList w.toList).sum
    + 4 * (complexityTraining.map fun w => numOcc text.toList w.toList).sum
    + text.toList.count ','
    + 2 * (pyWordCount user_input / 25)
  max 3 (min 18 ((scoreTimesTwo / 2 + 5 : Nat) : Int))

/-- Modelled from the spec, as amended for claim C6: the same formula with
each keyword contributing once when it occurs at least once as a substring
of the lowercased topic. -/
def spec_slide_count_presence (user_input : String) : Int :=
  let text := pyLower user_input
  let scoreTimesTwo : Nat :=
    4 * (complexityBroad.countP fun w => containsSub text w)
    + 3 * (complexityProcess.countP fun w => containsSub text w)
    + 4 * (complexityTraining.countP fun w => containsSub text w)
    + text.toList.count ','
    + 2 * (pyWordCount user_input / 25)
  max 3 (min 18 ((scoreTimesTwo / 2 + 5 : Nat) : Int))

/-!  JSON extraction (`extract_and_parse_json`, `backend.py` lines 193-236). -/

/-- The characters of the opening marker `<json>`. -/
def tagOpenChars : List Char := "<json>".toList

/-- The characters of the closing marker `</json>`. -/
def tagCloseChars : List Char := "</json>".toList

/-- Strategy 1 of `extract_and_parse_json`: the case-insensitive regex
search for `<json>\s*(.*?)\s*</json>` (DOTALL).  The leftmost match starts
at the first `<json>`; the lazy group ends at the first subsequent
`</json>`; the `\s*` trimming and the `.strip()` applied to the group
together amount to one `strip` of the enclosed text. -/
def tagCandidate (text : String) : Option String :=
  let lcs := (pyLower text).toList
  match findSubstrIdx lcs tagOpenChars with
  | Option.none => Option.none
  | some i =>
    match findSubstrIdx (lcs.drop (i + 6)) tagCloseChars with
    | Option.none => Option.none
    | some d => some (pyStrip (String.mk ((text.toList.drop (i + 6)).take d)))

/-- One step of the bracket scan's depth update: `[` increments, `]`
decrements, anything else leaves the depth unchanged. -/
def depthStep (c : Char) (depth : Int) : Int :=
  if c = '[' then depth + 1 else if c = ']' then depth - 1 else depth

/-- The bracket scan of Strategy 2: walking the characters while tracking
nesting depth, returning the length of the span ending at the `]` that
first brings the depth back to zero, or `Option.none` if the loop runs out
(the `for ... else` branch). -/
def scanLen : List Char → Int → Option Nat
  | [], _ => Option.none
  | c :: rest, depth =>
    if c = ']' ∧ depthStep c depth = 0 then some 1
    else (scanLen rest (depthStep c depth)).map (· + 1)

/-- Strategy 2 of `extract_and_parse_json`: from the first `[`, scan for the
matching `]` at nesting depth zero; fail if none exists. -/
def bracketCandidate (text : String) : Option String :=
  match text.toList.findIdx? (fun c => c == '[') with
  | Option.none => Option.none
  | some s =>
    match scanLen (text.toList.drop s) 0 with
    | Option.none => Option.none
    | some k => some (pyStrip (String.mk ((text.toList.drop s).take k)))

/-- The character-for-character replacements of the "clean common issues"
step: typographic double quotes to `"`, typographic single quotes to `'`,
en/em dashes to `-`. -/
def normalizeChar (c : Char) : Char :=
  if c = Char.ofNat 0x201C || c = Char.ofNat 0x201D then '"'
  else if c = Char.ofNat 0x2018 || c = Char.ofNat 0x2019 then squote
  else if c = Char.ofNat 0x2013 || c = Char.ofNat 0x2014 then '-'
  else c

mutual
/-- `re.sub(r",\s*([\]\}])", r"\1", s)`: scanning for a comma. -/
def reSubCommas : List Char → List Char
  | [] => []
  | c :: rest =>
    if c = ',' then reSubAfterComma rest []
    else c :: reSubCommas rest
termination_by l => (l.length, 0)
/-- After a comma: consume whitespace (accumulated in `ws`); if a closing
`]`/`}` follows, the match is replaced by just that bracket; otherwise the
comma and whitespace are kept and scanning resumes. -/
def reSubAfterComma : List Char → List Char → List Char
  | [], ws => ',' :: ws.reverse
  | c :: rest, ws =>
    if pyIsSpace c then reSubAfterComma rest (c :: ws)
    else if c = ']' ∨ c = Char.ofNat 125 then c :: reSubCommas rest
    else ',' :: (ws.reverse ++ reSubCommas (c :: rest))
termination_by l ws => (l.length, 1)
end

/-- The full cleaning step applied to the candidate string (replacements,
then trailing-comma removal). -/
def cleanCandidate (s : String) : String :=
  String.mk (reSubCommas (s.toList.map normalizeChar))

/-- The two stdlib text parsers used by the parse loop.  They are external
library code; a parser models raising an exception (swallowed by the bare
`except:`) by returning `Option.none`. -/
structure Parsers where
  jsonLoads : String → Option PyValue
  astLiteralEval : String → Option PyValue

/-- `extract_and_parse_json` from `backend.py` (lines 193-236): tag search,
bracket-scan fallback, cleaning, then the two parsers in order, keeping the
first result that is a list.  Total: every failure path returns
`Option.none`, never an error. -/
def extract_and_parse_json (P : Parsers) (text : String) : Option (List PyValue) :=
  if text = "" then Option.none
  else
    match (match tagCandidate text with
           | some js => some js
           | Option.none => bracketCandidate text) with
    | Option.none => Option.none
    | some js =>
      let cleaned := cleanCandidate js
      match P.jsonLoads cleaned with
      | some (PyValue.list l) => some l
      | _ =>
        match P.astLiteralEval cleaned with
        | some (PyValue.list l) => some l
        | _ => Option.none

/-!  Slide coercion (`validate_and_coerce_slides`, lines 238-263). -/

/-- A slide record: `{"title": ..., "points": [...]}`. -/
structure Slide where
  title : String
  points : List String
deriving DecidableEq

/-- Python list slicing `l[:n]`, including the negative-bound case. -/
def pySliceTo (n : Int) (l : List α) : List α :=
  if 0 ≤ n then l.take n.toNat
  else l.take (l.length - (-n).toNat)

/-- One iteration of the points-cleaning loop: keep an entry only if it is
a string that is non-blank after stripping, and keep its stripped form. -/
def coercePoint (p : PyValue) : Option String :=
  match p with
  | PyValue.str s => if pyStrip s ≠ "" then some (pyStrip s) else Option.none
  | _ => Option.none

/-- `validate_and_coerce_slides` from `backend.py` (lines 238-263): take at
most `max_slides` leading records, skip non-dicts, stringify the title
(default `"Untitled Slide"` when the key is absent), and clean the points
(a non-list `points` value becomes the empty list). -/
def validate_and_coerce_slides (data : List PyValue) (max_slides : Int) : List Slide :=
  (pySliceTo max_slides data).filterMap fun item =>
    match item with
    | PyValue.dict kvs =>
      let title := pyStr ((dictGet kvs "title").getD (PyValue.str "Untitled Slide"))
      let points := (dictGet kvs "points").getD (PyValue.list [])
      let pointsList := match points with | PyValue.list l => l | _ => []
      some { title := title, points := pointsList.filterMap coercePoint }
    | _ => Option.none

/-!  The generation coordinator (`OllamaClient.ask_ollama` and
`generate_presentation`, lines 118-187 and 456-547). -/

/-- The sites at which the cancellation flag (`stop_event.is_set()`) is
read, in source order: line 474 (before starting), 128 (entry of
`ask_ollama`), 163 (after `communicate`), 168 (inside the non-zero
return-code branch), 183 (inside the generic exception handler), 500
(after the model reply), 508 (on an empty extraction), 527 (before
rendering). -/
inductive StopSite where
  | preStart | askEntry | askAfterComm | askAtRc | askExc
  | afterLLM | emptyExtract | preRender
deriving DecidableEq

/-- Outcome of the external `ollama` subprocess call: normal completion
with captured streams and return code, `subprocess.TimeoutExpired`,
`FileNotFoundError` from `Popen`, or any other exception. -/
inductive ProcOutcome where
  | completed (stdout stderr : String) (returncode : Int)
  | timeout
  | fileNotFound
  | otherExc (msg : String)

/-- The exceptions that can cross function boundaries in the backend:
`GenerationStopped`, `PPTGenerationError`, or any other Python exception. -/
inductive PyExc where
  | stopped
  | pptError (msg : String)
  | otherExc (msg : String)
deriving DecidableEq

/-- `str(e)` for a caught exception. -/
def excMsg : PyExc → String
  | .stopped => "Generation stopped by user"
  | .pptError m => m
  | .otherExc m => m

/-- The configuration returned by `load_config()` (file contents merged
with the defaults; `load_config` itself never raises). -/
structure Config where
  min_slides : Int
  max_slides : Int
  min_points : Int
  max_points : Int
  model : String
  ollama_timeout : Int

/-- The environment of one generation run: everything the pure embedding
cannot compute itself.  `formattedPrompt` is the result of
`str.format` on the user-configurable prompt template (which can raise
`KeyError`/`IndexError` for templates with unknown replacement fields);
`render` is the outcome of the `pptx` interaction inside
`create_presentation` (`Except.error` being the message of a raised
exception); `templateExists` models `os.path.exists(template_path)`. -/
structure Env where
  config : Config
  parsers : Parsers
  stop : StopSite → Bool
  proc : ProcOutcome
  formattedPrompt : Except PyExc String
  render : Except String String
  templateExists : Bool

/-- `OllamaClient.ask_ollama` from `backend.py` (lines 126-187): check the
flag on entry; run the subprocess; on completion check the flag, then the
return code (a set flag there is reported as `GenerationStopped` rather
than a failure); timeout and missing executable raise
`PPTGenerationError`; any other exception raises `GenerationStopped` when
the flag is set and `PPTGenerationError` otherwise. -/
def ask_ollama (env : Env) : Except PyExc String :=
  if env.stop StopSite.askEntry then Except.error PyExc.stopped
  else
    match env.proc with
    | ProcOutcome.completed out err rc =>
      if env.stop StopSite.askAfterComm then Except.error PyExc.stopped
      else if rc ≠ 0 then
        if env.stop StopSite.askAtRc then Except.error PyExc.stopped
        else Except.error (PyExc.pptError
          ("Ollama failed: " ++ (if err = "" then "Unknown error" else err)))
      else Except.ok (pyStrip out)
    | ProcOutcome.timeout =>
      Except.error (PyExc.pptError
        ("Ollama request timed out after " ++ toString env.config.ollama_timeout ++ " seconds"))
    | ProcOutcome.fileNotFound =>
      Except.error (PyExc.pptError "Ollama executable not found. Please install Ollama.")
    | ProcOutcome.otherExc m =>
      if env.stop StopSite.askExc then Except.error PyExc.stopped
      else Except.error (PyExc.pptError ("Ollama request failed: " ++ m))

/-- `create_presentation` from `backend.py` (lines 269-450): the `pptx`
rendering itself is external (out of scope per the spec); the function's
own `try/except` wraps any exception into `PPTGenerationError`. -/
def create_presentation (render : Except String String) : Except PyExc String :=
  match render with
  | Except.ok path => Except.ok path
  | Except.error m => Except.error (PyExc.pptError ("Failed to create presentation: " ++ m))

/-- The metadata dictionary returned by `generate_presentation`. -/
structure Metadata where
  slide_count : Nat
  topic : String
  template_used : Bool
deriving DecidableEq

/-- The fixed two-slide fallback outline substituted when extraction yields
no structure (lines 513-521). -/
def fallbackSlides (topic : String) : List PyValue :=
  [ PyValue.dict
      [("title", PyValue.str (if pyStrip topic = "" then "Presentation" else pyStrip topic)),
       ("points", PyValue.list [])],
    PyValue.dict
      [("title", PyValue.str "Overview"),
       ("points", PyValue.list
         [ PyValue.str "• Key concepts and fundamentals",
           PyValue.str "• Practical applications and examples",
           PyValue.str "• Implementation strategies",
           PyValue.str "• Best practices and considerations"])] ]

/-- Python truthiness of the parse result: `not slides_data` holds when the
extraction returned `None` or the empty list. -/
def pyFalsyOptList (o : Option (List PyValue)) : Bool :=
  match o with
  | Option.none => true
  | some l => l.isEmpty

/-- The body of `generate_presentation`'s `try:` block (lines 477-541),
before the exception wrapping. -/
def generateBody (topic : String) (template_path : Option String) (env : Env) :
    Except PyExc (String × Metadata) :=
  let cfg := env.config
  let max_slides :=
    max cfg.min_slides (min cfg.max_slides (estimate_slide_count_from_keywords topic))
  match env.formattedPrompt with
  | Except.error e => Except.error e
  | Except.ok _prompt =>
    match ask_ollama env with
    | Except.error e => Except.error e
    | Except.ok response =>
      if env.stop StopSite.afterLLM then Except.error PyExc.stopped
      else
        let slidesOpt := extract_and_parse_json env.parsers response
        let withFallback : Except PyExc (List PyValue) :=
          if pyFalsyOptList slidesOpt then
            if env.stop StopSite.emptyExtract then Except.error PyExc.stopped
            else Except.ok (fallbackSlides topic)
          else Except.ok (slidesOpt.getD [])
        match withFallback with
        | Except.error e => Except.error e
        | Except.ok slides_data =>
          let slides := validate_and_coerce_slides slides_data max_slides
          if env.stop StopSite.preRender then Except.error PyExc.stopped
          else
            match create_presentation env.render with
            | Except.error e => Except.error e
            | Except.ok file_path =>
              Except.ok (file_path,
                { slide_count := slides.length,
                  topic := topic,
                  template_used :=
                    match template_path with
                    | Option.none => false
                    | some p => decide (p ≠ "") && env.templateExists })

/-- The outer `except` clauses of `generate_presentation` (lines 543-547):
`GenerationStopped` is re-raised; anything else is wrapped into a
`PPTGenerationError`. -/
def wrapGenerate (r : Except PyExc (String × Metadata)) : Except PyExc (String × Metadata) :=
  match r with
  | Except.ok v => Except.ok v
  | Except.error PyExc.stopped => Except.error PyExc.stopped
  | Except.error e =>
      Except.error (PyExc.pptError ("Failed to generate presentation: " ++ excMsg e))

/-- `generate_presentation` from `backend.py` (lines 456-547).  The unused
`font_name`/`font_size` arguments are forwarded to the renderer, which is
part of the environment. -/
def generate_presentation (topic : String) (template_path : Option String)
    (font_name : String) (font_size : Int) (env : Env) :
    Except PyExc (String × Metadata) :=
  if pyStrip topic = "" then Except.error (PyExc.pptError "Topic cannot be empty")
  else if env.stop StopSite.preStart then Except.error PyExc.stopped
  else wrapGenerate (generateBody topic template_path env)

/-!  Predicates used to state the claims, and concrete environments used by
the witnesses. -/

/-- Does the (lowercased) text carry the opening marker `<json>` at
position `i`? -/
def tagOpenAt (t : String) (i : Nat) : Bool :=
  tagOpenChars.isPrefixOf ((pyLower t).toList.drop i)

/-- Does the (lowercased) text carry the closing marker `</json>` at
position `j`? -/
def tagCloseAt (t : String) (j : Nat) : Bool :=
  tagCloseChars.isPrefixOf ((pyLower t).toList.drop j)

/-- No `<json>...</json>` marker block: no position carries the opening
marker with the closing marker anywhere at or after the end of the opening
one. -/
def NoTagPair (t : String) : Prop :=
  ∀ i < t.toList.length, ∀ j < t.toList.length,
    ¬(tagOpenAt t i = true ∧ i + 6 ≤ j ∧ tagCloseAt t j = true)

instance (t : String) : Decidable (NoTagPair t) :=
  inferInstanceAs (Decidable (∀ i < t.toList.length, ∀ j < t.toList.length,
    ¬(tagOpenAt t i = true ∧ i + 6 ≤ j ∧ tagCloseAt t j = true)))

/-- The characters from the first `[` onward (empty when the text has no
`[` at all). -/
def bracketSuffix (t : String) : List Char :=
  match t.toList.findIdx? (fun c => c == '[') with
  | Option.none => []
  | some s => t.toList.drop s

/-- Unbalanced (or absent) square brackets: no nonempty prefix of the
from-the-first-`[` suffix has as many `]` as `[`.  When the text has no
`[`, the condition holds vacuously. -/
def NoBalancedSpan (t : String) : Prop :=
  ∀ k < (bracketSuffix t).length + 1, 0 < k →
    ((bracketSuffix t).take k).count '[' ≠ ((bracketSuffix t).take k).count ']'

instance (t : String) : Decidable (NoBalancedSpan t) :=
  inferInstanceAs (Decidable (∀ k < (bracketSuffix t).length + 1, 0 < k →
    ((bracketSuffix t).take k).count '[' ≠ ((bracketSuffix t).take k).count ']'))

/-- Is the value a Python list? -/
def isListV : PyValue → Bool
  | PyValue.list _ => true
  | _ => false

/-- A generation outcome permitted by the interface: a result pair,
`GenerationStopped`, or `PPTGenerationError` — never any other exception. -/
def isSpecifiedOutcome (r : Except PyExc (String × Metadata)) : Prop :=
  match r with
  | Except.ok _ => True
  | Except.error PyExc.stopped => True
  | Except.error (PyExc.pptError _) => True
  | Except.error (PyExc.otherExc _) => False

/-- Parsers that reject every input (as `json.loads` and
`ast.literal_eval` do on plain prose). -/
def trivParsers : Parsers :=
  { jsonLoads := fun _ => Option.none, astLiteralEval := fun _ => Option.none }

/-- The default configuration of `load_config`. -/
def defaultConfig : Config :=
  { min_slides := 3, max_slides := 20, min_points := 4, max_points := 12,
    model := "qwen3", ollama_timeout := 120 }

/-- A run in which the model replies with plain prose, nothing is
cancelled, and the renderer succeeds. -/
def envProse : Env :=
  { config := defaultConfig, parsers := trivParsers,
    stop := fun _ => false,
    proc := ProcOutcome.completed "A plain prose reply with no structure at all" "" 0,
    formattedPrompt := Except.ok "prompt",
    render := Except.ok "/tmp/out.pptx",
    templateExists := false }

/-- A run whose cancellation token is set from the very start. -/
def envStopped : Env :=
  { envProse with stop := fun _ => true }

/-- A run whose cancellation token is set and whose external process was
terminated, exiting with return code 1. -/
def envStoppedKilled : Env :=
  { envProse with
    stop := fun _ => true
    proc := ProcOutcome.completed "" "terminated" 1 }

/-!  ## Theorems -/

/-- Every outcome of the outer exception wrapper is a result pair, a
`GenerationStopped`, or a `PPTGenerationError`. -/
theorem wrapGenerate_specified (r : Except PyExc (String × Metadata)) :
    isSpecifiedOutcome (wrapGenerate r) := by
  rcases r with e | v
  · rcases e with _ | m | m <;> trivial
  · trivial

/-- Claim C10: `generate_presentation` either returns a (file path,
metadata) pair or fails with exactly `GenerationStopped` or
`PPTGenerationError`; every other internal exception is wrapped into
`PPTGenerationError` before escaping. -/
theorem generate_presentation_outcomes (topic : String) (template_path : Option String)
    (font_name : String) (font_size : Int) (env : Env) :
    isSpecifiedOutcome (generate_presentation topic template_path font_name font_size env) := by
  unfold generate_presentation
  split
  · trivial
  · split
    · trivial
    · exact wrapGenerate_specified _

/-- Claim C5: a blank or whitespace-only topic fails with the
invalid-input `PPTGenerationError` before any other work is done — the
result does not depend on the environment (model, parsers, renderer,
cancellation flag) at all. -/
theorem blank_topic_fails_invalid_input (topic : String) (template_path : Option String)
    (font_name : String) (font_size : Int) (env : Env)
    (h : pyStrip topic = "") :
    generate_presentation topic template_path font_name font_size env =
      Except.error (PyExc.pptError "Topic cannot be empty") := by
  simp [generate_presentation, h]

/-- Witness for C5 at the whitespace-only topic `"   "`. -/
theorem blank_topic_fails_invalid_input_witness :
    pyStrip "   " = "" ∧
    generate_presentation "   " Option.none "Calibri" 12 envProse =
      Except.error (PyExc.pptError "Topic cannot be empty") :=
  ⟨by decide, blank_topic_fails_invalid_input "   " Option.none "Calibri" 12 envProse (by decide)⟩

/-- Claim C3 as stated is false: with the cancellation token set from the
start but a blank topic, the run fails with the invalid-input error (the
topic validation precedes the first token check), not `Stopped`. -/
theorem stop_set_blank_topic_fails_not_stopped :
    generate_presentation " " Option.none "Calibri" 12 envStopped =
      Except.error (PyExc.pptError "Topic cannot be empty") ∧
    generate_presentation " " Option.none "Calibri" 12 envStopped ≠
      Except.error PyExc.stopped := by
  have h1 : generate_presentation " " Option.none "Calibri" 12 envStopped =
      Except.error (PyExc.pptError "Topic cannot be empty") := by
    apply blank_topic_fails_invalid_input
    decide
  refine ⟨h1, ?_⟩
  rw [h1]
  simp

/-- Claim C3, amended: for every generation request with a *non-blank*
topic whose cancellation token is set before the model invocation begins,
the run yields `Stopped` — never `Completed`, never `Failed`. -/
theorem stop_set_before_start_yields_stopped (topic : String) (template_path : Option String)
    (font_name : String) (font_size : Int) (env : Env)
    (h1 : pyStrip topic ≠ "") (h2 : env.stop StopSite.preStart = true) :
    generate_presentation topic template_path font_name font_size env =
      Except.error PyExc.stopped := by
  simp [generate_presentation, h1, h2]

/-- Witness for the amended C3 at topic `"Python basics"` with the token
set from the start. -/
theorem stop_set_before_start_yields_stopped_witness :
    pyStrip "Python basics" ≠ "" ∧ envStopped.stop StopSite.preStart = true ∧
    generate_presentation "Python basics" Option.none "Calibri" 12 envStopped =
      Except.error PyExc.stopped :=
  ⟨by decide, rfl,
   stop_set_before_start_yields_stopped "Python basics" Option.none "Calibri" 12 envStopped
     (by decide) rfl⟩

/-- Claim C4: when the external process exits non-zero while the
cancellation flag is set (at the flag read after `communicate` or at the
read inside the return-code branch), `ask_ollama` reports
`GenerationStopped`, never the external-process `PPTGenerationError`. -/
theorem nonzero_exit_with_stop_is_stopped (env : Env) (out err : String) (rc : Int)
    (hp : env.proc = ProcOutcome.completed out err rc) (hrc : rc ≠ 0)
    (hflag : env.stop StopSite.askAfterComm = true ∨ env.stop StopSite.askAtRc = true) :
    ask_ollama env = Except.error PyExc.stopped := by
  unfold ask_ollama
  rw [hp]
  by_cases h1 : env.stop StopSite.askEntry = true
  · simp [h1]
  · rcases hflag with h | h
    · simp [h1, h]
    · by_cases h2 : env.stop StopSite.askAfterComm = true <;> simp [h1, h2, h, hrc]

/-- Witness for C4: the process was terminated (exit code 1, flag set);
the call reports `GenerationStopped`. -/
theorem nonzero_exit_with_stop_is_stopped_witness :
    envStoppedKilled.proc = ProcOutcome.completed "" "terminated" 1 ∧ (1 : Int) ≠ 0 ∧
    envStoppedKilled.stop StopSite.askAfterComm = true ∧
    ask_ollama envStoppedKilled = Except.error PyExc.stopped :=
  ⟨rfl, by decide, rfl,
   nonzero_exit_with_stop_is_stopped envStoppedKilled "" "terminated" 1 rfl (by decide)
     (Or.inl rfl)⟩

/-- Coercing the fixed two-slide fallback outline under any slide bound of
at least 2 yields exactly the two advertised slides: a title slide echoing
the stripped topic with no points, and an `Overview` slide with the four
placeholder bullet points. -/
theorem validate_fallback_eq (topic : String) (m : Int) (hm : 2 ≤ m)
    (ht : pyStrip topic ≠ "") :
    validate_and_coerce_slides (fallbackSlides topic) m =
      [{ title := pyStrip topic, points := [] },
       { title := "Overview",
         points := [ "• Key concepts and fundamentals",
                     "• Practical applications and examples",
                     "• Implementation strategies",
                     "• Best practices and considerations"] }] := by
  unfold validate_and_coerce_slides pySliceTo fallbackSlides
  rw [if_pos (by omega : (0:Int) ≤ m)]
  rw [List.take_of_length_le (by simp; omega)]
  rw [if_neg ht]
  rfl

/-- Claim C1: when the outline extractor recovers no structure from the
model reply (a `None` or empty extraction result), `generate_presentation`
substitutes the fixed two-slide fallback outline and still completes
successfully — it returns a file path and metadata for two slides, and in
particular never a `Failed` outcome. -/
theorem empty_extraction_falls_back_and_completes
    (topic : String) (template_path : Option String) (font_name : String) (font_size : Int)
    (env : Env) (out err prompt path : String)
    (htopic : pyStrip topic ≠ "")
    (hstop : ∀ s, env.stop s = false)
    (hproc : env.proc = ProcOutcome.completed out err 0)
    (hfmt : env.formattedPrompt = Except.ok prompt)
    (hext : pyFalsyOptList (extract_and_parse_json env.parsers (pyStrip out)) = true)
    (hrender : env.render = Except.ok path)
    (hmin : 2 ≤ env.config.min_slides) :
    generate_presentation topic template_path font_name font_size env =
      Except.ok (path,
        { slide_count := 2, topic := topic,
          template_used :=
            match template_path with
            | Option.none => false
            | some p => decide (p ≠ "") && env.templateExists }) := by
  have hm : (2 : Int) ≤ max env.config.min_slides
      (min env.config.max_slides (estimate_slide_count_from_keywords topic)) :=
    le_trans hmin (le_max_left _ _)
  unfold generate_presentation generateBody ask_ollama create_presentation
  rw [if_neg htopic]
  rw [hstop StopSite.preStart, hproc, hfmt, hrender]
  simp only [hstop, Bool.false_eq_true, if_false, ite_false]
  rw [if_neg (by omega : ¬ (0:Int) ≠ 0)]
  simp only [hext, if_true, ite_true]
  rw [validate_fallback_eq topic _ hm htopic]
  rfl

/-- Witness for C1: a plain-prose model reply with parsers that find no
structure; generation completes with the two fallback slides. -/
theorem empty_extraction_falls_back_and_completes_witness :
    pyFalsyOptList (extract_and_parse_json envProse.parsers
      (pyStrip "A plain prose reply with no structure at all")) = true ∧
    generate_presentation "Python basics" Option.none "Calibri" 12 envProse =
      Except.ok ("/tmp/out.pptx",
        { slide_count := 2, topic := "Python basics", template_used := false }) :=
  ⟨by decide,
   empty_extraction_falls_back_and_completes "Python basics" Option.none "Calibri" 12 envProse
     "A plain prose reply with no structure at all" "" "prompt" "/tmp/out.pptx"
     (by decide) (fun _ => rfl) rfl rfl (by decide) rfl (by decide)⟩

/-- Soundness of `findSubstrIdx`: a returned index carries the pattern. -/
theorem findSubstrIdx_sound :
    ∀ (cs pat : List Char) (i : Nat), findSubstrIdx cs pat = some i →
      pat.isPrefixOf (cs.drop i) = true := by
  intro cs
  induction cs with
  | nil =>
    intro pat i h
    unfold findSubstrIdx at h
    split at h
    · rename_i hp
      cases h
      rw [List.isEmpty_iff] at hp
      subst hp
      rfl
    · cases h
  | cons c rest ih =>
    intro pat i h
    unfold findSubstrIdx at h
    split at h
    · rename_i hp
      cases h
      simpa using hp
    · rw [Option.map_eq_some'] at h
      obtain ⟨j, hj, hi⟩ := h
      subst hi
      simpa using ih pat j hj

/-- A found index leaves room for the whole (nonempty) pattern. -/
theorem findSubstrIdx_bound (cs pat : List Char) (i : Nat) (hp : pat ≠ [])
    (h : findSubstrIdx cs pat = some i) : i + pat.length ≤ cs.length := by
  have hpre := findSubstrIdx_sound cs pat i h
  rw [List.isPrefixOf_iff_prefix] at hpre
  have hlen := hpre.length_le
  rw [List.length_drop] at hlen
  have hne : cs.drop i ≠ [] := by
    intro hnil
    rw [hnil, List.prefix_nil] at hpre
    exact hp hpre
  have hi : i < cs.length := by
    by_contra hge
    exact hne (List.drop_eq_nil_of_le (by omega))
  omega

/-- When the bracket scan succeeds after `k` characters, the consumed span
is nonempty, within bounds, and returns the running depth to zero. -/
theorem scanLen_balanced :
    ∀ (cs : List Char) (d : Int) (k : Nat), scanLen cs d = some k →
      0 < k ∧ k ≤ cs.length ∧
      d + ((cs.take k).count '[' : Int) - ((cs.take k).count ']' : Int) = 0 := by
  intro cs
  induction cs with
  | nil => intro d k h; cases h
  | cons c rest ih =>
    intro d k h
    unfold scanLen at h
    split at h
    · rename_i hcond
      obtain ⟨hc, hd⟩ := hcond
      cases h
      subst hc
      unfold depthStep at hd
      rw [if_neg (by decide), if_pos rfl] at hd
      refine ⟨by omega, by simp, ?_⟩
      simp [List.count_cons]
      omega
    · rw [Option.map_eq_some'] at h
      obtain ⟨k', hk', hi⟩ := h
      subst hi
      obtain ⟨hpos, hle, hbal⟩ := ih (depthStep c d) k' hk'
      refine ⟨by omega, by simp; omega, ?_⟩
      rw [List.take_succ_cons, List.count_cons, List.count_cons]
      unfold depthStep at hbal
      by_cases hc1 : c = '['
      · subst hc1
        rw [if_pos rfl] at hbal
        simp
        omega
      · by_cases hc2 : c = ']'
        · subst hc2
          rw [if_neg (by decide), if_pos rfl] at hbal
          simp
          omega
        · rw [if_neg hc1, if_neg hc2] at hbal
          simp [hc1, hc2]
          omega

/-- When the text has no `<json>...</json>` marker pair, the tag strategy
finds nothing. -/
theorem tagCandidate_eq_none (t : String) (h : NoTagPair t) :
    tagCandidate t = Option.none := by
  unfold tagCandidate
  dsimp only
  split
  · rfl
  · rename_i i h1
    split
    · rfl
    · rename_i d h2
      exfalso
      have hlen : (pyLower t).toList.length = t.toList.length := by
        simp [pyLower, String.toList]
      have hb1 := findSubstrIdx_bound _ _ _ (by decide) h1
      have hb2 := findSubstrIdx_bound _ _ _ (by decide) h2
      rw [List.length_drop] at hb2
      have hlo : tagOpenChars.length = 6 := by decide
      have hlc : tagCloseChars.length = 7 := by decide
      rw [hlo] at hb1
      rw [hlc] at hb2
      have ho : tagOpenAt t i = true := findSubstrIdx_sound _ _ _ h1
      have hcraw := findSubstrIdx_sound _ _ _ h2
      rw [List.drop_drop] at hcraw
      have hc : tagCloseAt t (i + 6 + d) = true := hcraw
      exact h i (by omega) (i + 6 + d) (by omega) ⟨ho, by omega, hc⟩

/-- When the brackets never balance, the bracket strategy finds nothing. -/
theorem bracketCandidate_eq_none (t : String) (h : NoBalancedSpan t) :
    bracketCandidate t = Option.none := by
  unfold bracketCandidate
  split
  · rfl
  · rename_i s h1
    split
    · rfl
    · rename_i k h2
      exfalso
      obtain ⟨hpos, hle, hbal⟩ := scanLen_balanced _ _ _ h2
      have hsfx : bracketSuffix t = t.toList.drop s := by
        unfold bracketSuffix
        rw [h1]
      unfold NoBalancedSpan at h
      rw [hsfx] at h
      exact h k (by omega) hpos (by omega)

/-- Claim C2: the outline extractor is a total function (the embedding is
a total Lean function mirroring every failure path of the source), and on
any input with no `<json>...</json>` marker pair and absent or unbalanced
square brackets it returns the empty (no-structure) result — whatever the
two stdlib parsers would do. -/
theorem extract_returns_none_without_structure (P : Parsers) (t : String)
    (htag : NoTagPair t) (hbr : NoBalancedSpan t) :
    extract_and_parse_json P t = Option.none := by
  unfold extract_and_parse_json
  rw [tagCandidate_eq_none t htag, bracketCandidate_eq_none t hbr]
  split <;> rfl

/-- Witness for C2: prose with a lone unmatched `[` and no marker block. -/
theorem extract_returns_none_without_structure_witness :
    NoTagPair "plain prose with one [ bracket" ∧
    NoBalancedSpan "plain prose with one [ bracket" ∧
    extract_and_parse_json trivParsers "plain prose with one [ bracket" = Option.none :=
  ⟨by decide, by decide,
   extract_returns_none_without_structure trivParsers "plain prose with one [ bracket"
     (by decide) (by decide)⟩

/-- Claim C6 as stated is false: the code adds one contribution per
*keyword present* (a substring test per keyword), not one per
*occurrence*.  On `"process process"` the keyword `process` occurs twice:
the claimed formula gives `int(5 + 1.5 * 2) = 8`, the code gives
`int(5 + 1.5) = 6`. -/
theorem estimate_differs_from_occurrence_formula :
    estimate_slide_count_from_keywords "process process" = 6 ∧
    spec_slide_count_occurrences "process process" = 8 ∧
    estimate_slide_count_from_keywords "process process" ≠
      spec_slide_count_occurrences "process process" := by
  refine ⟨by decide, by decide, by decide⟩

/-- Claim C6, amended: the heuristic computes base 5, plus 2 for each
broad-scope keyword *that occurs at least once* in the lowercased topic,
1.5 for each process keyword that occurs, 2 for each training keyword
that occurs, 0.5 per comma, one point per 25 words, truncated and clamped
to `[3, 18]`. -/
theorem estimate_matches_presence_formula (s : String) :
    estimate_slide_count_from_keywords s = spec_slide_count_presence s := by
  simp only [estimate_slide_count_from_keywords, spec_slide_count_presence]
  rw [List.countP_eq_length_filter, List.countP_eq_length_filter,
    List.countP_eq_length_filter]

/-- If the pattern sits somewhere in the text, `findSubstrIdx` finds an
occurrence. -/
theorem findSubstrIdx_isSome_of_prefix :
    ∀ (cs pat : List Char) (i : Nat), pat.isPrefixOf (cs.drop i) = true →
      (findSubstrIdx cs pat).isSome = true := by
  intro cs
  induction cs with
  | nil =>
    intro pat i h
    rw [List.drop_nil, List.isPrefixOf_iff_prefix, List.prefix_nil] at h
    subst h
    rfl
  | cons c rest ih =>
    intro pat i h
    unfold findSubstrIdx
    split
    · rfl
    · rename_i hnp
      cases i with
      | zero =>
        rw [List.drop_zero] at h
        exact absurd h (by simp [hnp])
      | succ j =>
        rw [List.drop_succ_cons] at h
        have hs := ih pat j h
        cases hfs : findSubstrIdx rest pat with
        | none => rw [hfs] at hs; cases hs
        | some v => rfl

/-- A nonempty pattern occurs somewhere iff its occurrence count is
positive. -/
theorem numOcc_pos_iff_contains (cs pat : List Char) (hp : pat ≠ []) :
    0 < numOcc cs pat ↔ (findSubstrIdx cs pat).isSome = true := by
  unfold numOcc
  rw [List.countP_pos_iff]
  constructor
  · rintro ⟨i, hmem, hocc⟩
    exact findSubstrIdx_isSome_of_prefix cs pat i hocc
  · intro hs
    cases hfs : findSubstrIdx cs pat with
    | none => rw [hfs] at hs; cases hs
    | some i =>
      have hocc := findSubstrIdx_sound cs pat i hfs
      refine ⟨i, List.mem_range.mpr ?_, hocc⟩
      by_contra hge
      have hnil : cs.drop i = [] := List.drop_eq_nil_of_le (by omega)
      rw [hnil, List.isPrefixOf_iff_prefix, List.prefix_nil] at hocc
      exact hp hocc

/-- Equal occurrence counts of a (nonempty) keyword give the same
substring-presence test result. -/
theorem containsSub_eq_of_numOcc_eq (t1 t2 w : String) (hw : w.toList ≠ [])
    (h : numOcc (pyLower t1).toList w.toList = numOcc (pyLower t2).toList w.toList) :
    containsSub (pyLower t1) w = containsSub (pyLower t2) w := by
  unfold containsSub
  have h1 := numOcc_pos_iff_contains (pyLower t1).toList w.toList hw
  have h2 := numOcc_pos_iff_contains (pyLower t2).toList w.toList hw
  rw [Bool.eq_iff_iff, ← h1, ← h2, h]

/-- Every keyword of the three indicator lists is a nonempty string. -/
theorem indicator_keywords_nonempty :
    ∀ w ∈ allIndicatorKeywords, w.toList ≠ [] := by decide

/-- Keyword filters agree on topics whose keyword occurrence counts
agree. -/
theorem filter_contains_congr (t1 t2 : String) (kws : List String)
    (hkw : ∀ w ∈ kws, w ∈ allIndicatorKeywords)
    (hocc : ∀ w ∈ allIndicatorKeywords,
      numOcc (pyLower t1).toList w.toList = numOcc (pyLower t2).toList w.toList) :
    kws.filter (fun w => containsSub (pyLower t1) w) =
      kws.filter (fun w => containsSub (pyLower t2) w) := by
  apply List.filter_congr
  intro w hw
  have hmem := hkw w hw
  exact containsSub_eq_of_numOcc_eq t1 t2 w (indicator_keywords_nonempty w hmem) (hocc w hmem)

/-- Claim C7: the slide-count heuristic is monotone non-decreasing in the
topic word count when the keyword occurrence counts and the comma count
are held fixed, and its value always lies in `[3, 18]` (prior to the
configuration clamp). -/
theorem estimate_monotone_and_in_range :
    (∀ t1 t2 : String,
      (∀ w ∈ allIndicatorKeywords,
        numOcc (pyLower t1).toList w.toList = numOcc (pyLower t2).toList w.toList) →
      (pyLower t1).toList.count ',' = (pyLower t2).toList.count ',' →
      pyWordCount t1 ≤ pyWordCount t2 →
      estimate_slide_count_from_keywords t1 ≤ estimate_slide_count_from_keywords t2) ∧
    (∀ t : String, 3 ≤ estimate_slide_count_from_keywords t ∧
      estimate_slide_count_from_keywords t ≤ 18) := by
  constructor
  · intro t1 t2 hocc hcomma hwc
    simp only [estimate_slide_count_from_keywords]
    rw [filter_contains_congr t1 t2 complexityBroad
        (by intro w hw; simp [allIndicatorKeywords, List.mem_append]; exact Or.inl hw) hocc,
      filter_contains_congr t1 t2 complexityProcess
        (by intro w hw; simp [allIndicatorKeywords, List.mem_append]; exact Or.inr (Or.inl hw)) hocc,
      filter_contains_congr t1 t2 complexityTraining
        (by intro w hw; simp [allIndicatorKeywords, List.mem_append]; exact Or.inr (Or.inr hw)) hocc,
      hcomma]
    omega
  · intro t
    simp only [estimate_slide_count_from_keywords]
    omega

/-- Witness for C7's monotonicity at the pair `"alpha"` / `"alpha beta"`
(same keyword occurrences, same commas, more words). -/
theorem estimate_monotone_and_in_range_witness :
    (∀ w ∈ allIndicatorKeywords,
      numOcc (pyLower "alpha").toList w.toList =
        numOcc (pyLower "alpha beta").toList w.toList) ∧
    (pyLower "alpha").toList.count ',' = (pyLower "alpha beta").toList.count ',' ∧
    pyWordCount "alpha" ≤ pyWordCount "alpha beta" ∧
    estimate_slide_count_from_keywords "alpha" ≤
      estimate_slide_count_from_keywords "alpha beta" :=
  ⟨by decide, by decide, by decide,
   estimate_monotone_and_in_range.1 "alpha" "alpha beta" (by decide) (by decide) (by decide)⟩

/-- `dropWhile` is idempotent. -/
theorem dropWhile_self_idem {α : Type} (p : α → Bool) (l : List α) :
    (l.dropWhile p).dropWhile p = l.dropWhile p := by
  cases h : l.dropWhile p with
  | nil => rfl
  | cons c t =>
    have hc := List.head?_dropWhile_not p l
    rw [h] at hc
    simp only [List.head?_cons] at hc
    exact List.dropWhile_cons_of_neg (by simp [hc])

/-- Two-sided whitespace stripping is idempotent. -/
theorem stripList_idem (cs : List Char) : stripList (stripList cs) = stripList cs := by
  unfold stripList
  cases hA : cs.dropWhile pyIsSpace with
  | nil => rfl
  | cons h t =>
    have hph : pyIsSpace h = false := by
      have hh := List.head?_dropWhile_not pyIsSpace cs
      rw [hA] at hh
      simpa using hh
    have key : ∃ u : List Char,
        ((h :: t).reverse.dropWhile pyIsSpace).reverse = h :: u := by
      rw [List.reverse_cons, List.dropWhile_append]
      by_cases hE : (t.reverse.dropWhile pyIsSpace).isEmpty = true
      · rw [if_pos hE]
        rw [List.dropWhile_cons_of_neg (by simp [hph])]
        exact ⟨[], by simp⟩
      · rw [if_neg hE]
        rw [List.reverse_append]
        exact ⟨(t.reverse.dropWhile pyIsSpace).reverse, by simp⟩
    obtain ⟨u, hu⟩ := key
    rw [hu]
    rw [List.dropWhile_cons_of_neg (by simp [hph])]
    have hrev : (h :: u).reverse = (h :: t).reverse.dropWhile pyIsSpace := by
      rw [← hu, List.reverse_reverse]
    rw [hrev, dropWhile_self_idem]
    exact hu

/-- Python `str.strip()` is idempotent. -/
theorem pyStrip_idem (s : String) : pyStrip (pyStrip s) = pyStrip s := by
  unfold pyStrip
  rw [show (String.mk (stripList s.toList)).toList = stripList s.toList from rfl,
    stripList_idem]

/-- Claim C8 as stated is false: a record whose `title` field is present
but of the wrong type (here the integer `42`) is stringified to `"42"`,
not replaced by the `"Untitled Slide"` placeholder. -/
theorem wrong_typed_title_not_placeholder :
    validate_and_coerce_slides [PyValue.dict [("title", PyValue.int 42)]] 5 =
      [{ title := "42", points := [] }] ∧
    ("42" : String) ≠ "Untitled Slide" := by
  refine ⟨rfl, by decide⟩

/-- Claim C8, amended: every slide produced by the coercion step comes
from a record (key-value mapping) of the sliced input, and its title is
the `"Untitled Slide"` placeholder exactly when the record has no `title`
key, and the Python stringification of the field's value otherwise — so
the title can differ from the placeholder for wrong-typed fields (e.g.
`42` becomes `"42"`) and can even be empty (an empty-string field). -/
theorem coerced_title_from_field :
    ∀ (data : List PyValue) (m : Int) (slide : Slide),
      slide ∈ validate_and_coerce_slides data m →
      ∃ kvs, PyValue.dict kvs ∈ pySliceTo m data ∧
        (dictGet kvs "title" = Option.none → slide.title = "Untitled Slide") ∧
        (∀ v, dictGet kvs "title" = some v → slide.title = pyStr v) := by
  intro data m slide h
  unfold validate_and_coerce_slides at h
  rw [List.mem_filterMap] at h
  obtain ⟨item, hmem, heq⟩ := h
  cases item with
  | dict kvs =>
    simp only [Option.some.injEq] at heq
    subst heq
    refine ⟨kvs, hmem, ?_, ?_⟩
    · intro hnone
      simp [hnone, pyStr]
    · intro v hv
      simp [hv]
  | none => exact absurd heq (by simp)
  | bool b => exact absurd heq (by simp)
  | int n => exact absurd heq (by simp)
  | str s => exact absurd heq (by simp)
  | list l => exact absurd heq (by simp)

/-- Witness for the amended C8 at a wrong-typed title field. -/
theorem coerced_title_from_field_witness :
    ({ title := "42", points := [] } : Slide) ∈
        validate_and_coerce_slides [PyValue.dict [("title", PyValue.int 42)]] 5 ∧
    ∃ kvs, PyValue.dict kvs ∈ pySliceTo (5 : Int) [PyValue.dict [("title", PyValue.int 42)]] ∧
      (dictGet kvs "title" = Option.none →
        ({ title := "42", points := [] } : Slide).title = "Untitled Slide") ∧
      (∀ v, dictGet kvs "title" = some v →
        ({ title := "42", points := [] } : Slide).title = pyStr v) :=
  ⟨by decide, coerced_title_from_field [PyValue.dict [("title", PyValue.int 42)]] 5
    { title := "42", points := [] } (by decide)⟩

/-- Claim C9 as stated is false: the coercion step does *not* strip
leading bullet/dash markers — a point `"• second"` is kept verbatim
(marker stripping happens later, in the renderer). -/
theorem points_keep_bullet_markers :
    validate_and_coerce_slides
      [PyValue.dict [("title", PyValue.str "T"),
                     ("points", PyValue.list [PyValue.str "• second"])]] 5 =
      [{ title := "T", points := ["• second"] }] ∧
    ("• second" : String) ≠ "second" := by
  refine ⟨rfl, by decide⟩

/-- Claim C9, amended: every point of every coerced slide is a non-empty,
whitespace-trimmed string (leading bullet/dash markers are retained at
this stage; non-string or blank entries are dropped silently), and a
record whose `points` field is present but not a sequence yields an empty
points list, never an error. -/
theorem coerced_points_clean :
    (∀ (data : List PyValue) (m : Int) (slide : Slide),
      slide ∈ validate_and_coerce_slides data m →
      ∀ p ∈ slide.points, p ≠ "" ∧ pyStrip p = p) ∧
    (∀ (kvs : List (String × PyValue)) (v : PyValue) (m : Int),
      dictGet kvs "points" = some v → isListV v = false →
      ∀ slide ∈ validate_and_coerce_slides [PyValue.dict kvs] m, slide.points = []) := by
  constructor
  · intro data m slide h p hp
    unfold validate_and_coerce_slides at h
    rw [List.mem_filterMap] at h
    obtain ⟨item, hmem, heq⟩ := h
    cases item with
    | dict kvs =>
      simp only [Option.some.injEq] at heq
      subst heq
      rw [List.mem_filterMap] at hp
      obtain ⟨q, hqmem, hq⟩ := hp
      cases q with
      | str s =>
        simp only [coercePoint] at hq
        split at hq
        · rename_i hne
          rw [Option.some.injEq] at hq
          subst hq
          exact ⟨hne, pyStrip_idem s⟩
        · exact absurd hq (by simp)
      | none => exact absurd hq (by simp [coercePoint])
      | bool b => exact absurd hq (by simp [coercePoint])
      | int n => exact absurd hq (by simp [coercePoint])
      | list l => exact absurd hq (by simp [coercePoint])
      | dict kvs2 => exact absurd hq (by simp [coercePoint])
    | none => exact absurd heq (by simp)
    | bool b => exact absurd heq (by simp)
    | int n => exact absurd heq (by simp)
    | str s => exact absurd heq (by simp)
    | list l => exact absurd heq (by simp)
  · intro kvs v m hget hnl slide h
    unfold validate_and_coerce_slides at h
    rw [List.mem_filterMap] at h
    obtain ⟨item, hmem, heq⟩ := h
    have hsub : item ∈ [PyValue.dict kvs] := by
      unfold pySliceTo at hmem
      split at hmem
      · exact List.mem_of_mem_take hmem
      · exact List.mem_of_mem_take hmem
    rw [List.mem_singleton] at hsub
    subst hsub
    simp only [Option.some.injEq] at heq
    subst heq
    simp only [hget, Option.getD_some]
    cases v with
    | list l => exact absurd hnl (by simp [isListV])
    | none => rfl
    | bool b => rfl
    | int n => rfl
    | str s => rfl
    | dict kvs2 => rfl

/-- Witness for the amended C9: a padded point is kept trimmed and
non-empty; a non-sequence `points` field gives an empty points list. -/
theorem coerced_points_clean_witness :
    (({ title := "T", points := ["ok"] } : Slide) ∈
        validate_and_coerce_slides
          [PyValue.dict [("title", PyValue.str "T"),
                         ("points", PyValue.list [PyValue.str " ok "])]] 3 ∧
      ("ok" : String) ≠ "" ∧ pyStrip "ok" = "ok") ∧
    (dictGet [("points", PyValue.str "oops")] "points" = some (PyValue.str "oops") ∧
      isListV (PyValue.str "oops") = false ∧
      ({ title := "Untitled Slide", points := [] } : Slide) ∈
        validate_and_coerce_slides [PyValue.dict [("points", PyValue.str "oops")]] 3 ∧
      ({ title := "Untitled Slide", points := [] } : Slide).points = []) :=
  ⟨⟨by decide,
    coerced_points_clean.1
      [PyValue.dict [("title", PyValue.str "T"),
                     ("points", PyValue.list [PyValue.str " ok "])]] 3
      { title := "T", points := ["ok"] } (by decide) "ok" (by decide)⟩,
   ⟨rfl, rfl, by decide,
    coerced_points_clean.2 [("points", PyValue.str "oops")] (PyValue.str "oops") 3 rfl rfl
      { title := "Untitled Slide", points := [] } (by decide)⟩⟩

end PPTGen
